import Mathlib

/-!
Shallow embedding of `astroquery/irsa/core.py`: the IRSA Gator catalog
query client.  The module builds an HTTP GET payload from spatial search
criteria (Cone, Box, Polygon, All-Sky), optionally short-circuits with the
payload itself, and parses the tabular response.

Conventions of the embedding:
* Python exceptions become `Except QueryError`; each `QueryError`
  constructor records the Python exception class that would be raised.
* The external astropy parsers (coordinate-string parsing, angle-string
  parsing, VOTable parsing) are external collaborators: their outcome on a
  given input is carried inside the input value itself as an oracle field
  (for example `CoordInput.str s parse` carries the result of
  `coord.ICRSCoordinates(s)`).  The control flow around those outcomes is
  translated from the source.
* Python numbers are modelled as rationals; angular units as a
  representative finite set (`arcsec`, `arcmin`, `deg` plus `hourangle`
  standing for any other degree-equivalent unit).
* A Python dict is an association list in insertion order.
-/

set_option autoImplicit false

namespace AstroqueryIrsa

/-- Angular units of the model: the three units the payload code keeps
verbatim, plus `hourangle` standing for any other unit equivalent to
degrees (`u.deg.find_equivalent_units()` membership). -/
inductive AngUnit
  | arcsec
  | arcmin
  | deg
  | hourangle
deriving DecidableEq

/-- The string astropy returns for `unit.to_string()`. -/
def AngUnit.to_string : AngUnit → String
  | AngUnit.arcsec => "arcsec"
  | AngUnit.arcmin => "arcmin"
  | AngUnit.deg => "deg"
  | AngUnit.hourangle => "hourangle"

/-- Conversion factor of the unit to degrees (`1 * unit` in degrees). -/
def AngUnit.degFactor : AngUnit → ℚ
  | AngUnit.arcsec => 1 / 3600
  | AngUnit.arcmin => 1 / 60
  | AngUnit.deg => 1
  | AngUnit.hourangle => 15

/-- An astropy `Quantity` restricted to angular units: a value and a unit. -/
structure Quantity where
  value : ℚ
  unit : AngUnit
deriving DecidableEq

/-- Value of the quantity converted to arc-seconds, modelling
`q.to(u.arcsec).value`. -/
def Quantity.toArcsecValue (q : Quantity) : ℚ :=
  q.value * q.unit.degFactor * 3600

/-- Input accepted by `_parse_dimension`: an angular `Quantity`, a
`Quantity` with a non-angular unit (fails the equivalent-units test), or a
string whose `commons.parse_radius` outcome in degrees is carried as an
oracle (`none` when parsing raises). -/
inductive DimInput
  | quantity (value : ℚ) (unit : AngUnit)
  | nonAngular (value : ℚ)
  | str (s : String) (parsedDeg : Option ℚ)
deriving DecidableEq

/-- Outcome of `coord.ICRSCoordinates` on a string: either the parsed ICRS
right ascension and declination in degrees, or the exception class it
raises (`ValueError` for an unrecognized string, `UnitsException` for a
recognized string with bad units). -/
inductive CoordParse
  | ok (ra dec : ℚ)
  | valueErr
  | unitsErr
deriving DecidableEq

/-- A value passed as `coordinates`: a string together with its
`ICRSCoordinates` parse outcome, or an astropy coordinate object whose ICRS
right ascension and declination in degrees are `ra` and `dec`. -/
inductive CoordInput
  | str (s : String) (parse : CoordParse)
  | coordObj (ra dec : ℚ)
deriving DecidableEq

/-- An element of a polygon vertex tuple: a bare number (on which
`coord.Angle` raises `UnitsException` because no unit is given) or an
angle-like value whose `.degree` is `deg`. -/
inductive AngleInput
  | num (q : ℚ)
  | angle (deg : ℚ)
deriving DecidableEq

/-- An element of the `polygon` list: a coordinate-like value (string or
coordinate object) or an `(ra, dec)` tuple. -/
inductive PolyElem
  | coordLike (c : CoordInput)
  | pair (a b : AngleInput)
deriving DecidableEq

/-- A value stored in the request payload dict: a string, a rational
number, a small integer, or the raw pass-through of a coordinate object
(only reachable for inputs the source would pass through unparsed). -/
inductive PValue
  | s (v : String)
  | q (v : ℚ)
  | n (v : ℕ)
  | rawObj (ra dec : ℚ)
deriving DecidableEq

/-- A request payload: a Python dict modelled as an association list in
insertion order. -/
abbrev Payload := List (String × PValue)

/-- The keys of a payload, in insertion order. -/
def Payload.keys (p : Payload) : List String := p.map Prod.fst

/-- Python `p.update(q)`: keys already present keep their position and take
the value from `q`; new keys of `q` are appended in order. -/
def Payload.update (p q : Payload) : Payload :=
  (p.map fun kv =>
    match List.lookup kv.1 q with
    | some v => (kv.1, v)
    | none => kv) ++
  q.filter fun kv => (List.lookup kv.1 p).isNone

/-- The Python exception that aborts a query, by exception class. -/
inductive QueryError
  | valueError (msg : String)
  | typeError (msg : String)
  | unitsException (msg : String)
  | unboundLocal (name : String)
  | indexError (msg : String)
  | exception (msg : String)
deriving DecidableEq

/-- Exceptions caught by `except (ValueError, TypeError)`. -/
def isVTError : QueryError → Bool
  | QueryError.valueError _ => true
  | QueryError.typeError _ => true
  | _ => false

/-- Checks whether `pat` occurs in the character list, modelling the Python
substring operator `in`. -/
def containsAux (pat : List Char) : List Char → Bool
  | [] => pat.isEmpty
  | c :: rest => pat.isPrefixOf (c :: rest) || containsAux pat rest

/-- Python substring test `pat in hay`. -/
def strContains (hay pat : String) : Bool :=
  containsAux pat.data hay.data

/-- Decimal digits of a natural number, most significant first, with
explicit fuel so the function is structurally recursive. -/
def natDigitsAux : ℕ → ℕ → List Char
  | 0, _ => []
  | fuel + 1, n =>
    if n < 10 then [Nat.digitChar n]
    else natDigitsAux fuel (n / 10) ++ [Nat.digitChar (n % 10)]

/-- Decimal digits of a natural number, most significant first. -/
def natDigits (n : ℕ) : List Char := natDigitsAux (n + 1) n

/-- Decimal expansion digits of the fraction `r / d` (the first argument is
the denominator), truncated at the fuel bound, modelling the fractional
digits Python prints for a float. -/
def fracDigits (d : ℕ) : ℕ → ℕ → List Char
  | _, 0 => []
  | r, k + 1 =>
    if r = 0 then []
    else Nat.digitChar (r * 10 / d) :: fracDigits d (r * 10 % d) k

/-- Decimal rendering of a rational, modelling Python `str()` of a float:
optional minus sign, integer digits, a dot, then fractional digits (at
least one, `0` for integral values). -/
def fmtRat (x : ℚ) : String :=
  (if x < 0 then "-" else "") ++
    String.mk (natDigits (x.num.natAbs / x.den)) ++ "." ++
    String.mk (if x.num.natAbs % x.den = 0 then ['0']
               else fracDigits x.den (x.num.natAbs % x.den) 12)

/-- Python format spec `:+` on a number: an explicit sign, `+` for
non-negative values. -/
def fmtSigned (x : ℚ) : String :=
  if x < 0 then fmtRat x else "+" ++ fmtRat x

/-- Source `_format_decimal_coords(ra, dec)` (core.py lines 429-433):
prints decimal-degree RA/Dec as the RA, a space, and the sign-prefixed
Dec. -/
def _format_decimal_coords (ra dec : ℚ) : String :=
  fmtRat ra ++ " " ++ fmtSigned dec

/-- Source `_is_coordinate(coordinates)` (core.py lines 402-407): tries
`coord.ICRSCoordinates(coordinates)` and returns `False` exactly when that
raises `ValueError`; any other exception propagates.  A coordinate object
constructs successfully; `None` is rejected with a propagating error. -/
def _is_coordinate : Option CoordInput → Except QueryError Bool
  | none => Except.error (QueryError.typeError "coordinates is None")
  | some (CoordInput.str _ (CoordParse.ok _ _)) => Except.ok true
  | some (CoordInput.str _ CoordParse.valueErr) => Except.ok false
  | some (CoordInput.str _ CoordParse.unitsErr) =>
      Except.error (QueryError.unitsException "coordinate string with unsupported units")
  | some (CoordInput.coordObj _ _) => Except.ok true

/-- Source `_parse_coordinates(coordinates)` (core.py lines 410-426): a
parseable string or a coordinate object is formatted with
`_format_decimal_coords` from its ICRS degrees; a string raising
`UnitsException` is re-raised after a warning; a string raising
`ValueError` propagates that error; any other value (such as a tuple)
raises `TypeError`. -/
def _parse_coordinates : PolyElem → Except QueryError String
  | PolyElem.coordLike (CoordInput.str _ (CoordParse.ok ra dec)) =>
      Except.ok (_format_decimal_coords ra dec)
  | PolyElem.coordLike (CoordInput.str _ CoordParse.valueErr) =>
      Except.error (QueryError.valueError "coordinate string not recognized")
  | PolyElem.coordLike (CoordInput.str _ CoordParse.unitsErr) =>
      Except.error (QueryError.unitsException "Only ICRS coordinates can be entered as strings")
  | PolyElem.coordLike (CoordInput.coordObj ra dec) =>
      Except.ok (_format_decimal_coords ra dec)
  | PolyElem.pair _ _ =>
      Except.error (QueryError.typeError "Argument cannot be parsed as a coordinate")

/-- Source `_parse_dimension(dim)` (core.py lines 436-447): an angular
`Quantity` is kept when its unit is arcsec, arcmin or deg, otherwise
converted to degrees; any other input goes through `commons.parse_radius`
to a degree quantity, and a failure there raises
`UnitsException("Dimension not in proper units")`. -/
def _parse_dimension : Option DimInput → Except QueryError Quantity
  | some (DimInput.quantity v un) =>
      if un = AngUnit.arcsec ∨ un = AngUnit.arcmin ∨ un = AngUnit.deg then
        Except.ok ⟨v, un⟩
      else
        Except.ok ⟨v * un.degFactor, AngUnit.deg⟩
  | some (DimInput.nonAngular _) =>
      Except.error (QueryError.unitsException "Dimension not in proper units")
  | some (DimInput.str _ (some d)) => Except.ok ⟨d, AngUnit.deg⟩
  | some (DimInput.str _ none) =>
      Except.error (QueryError.unitsException "Dimension not in proper units")
  | none =>
      Except.error (QueryError.unitsException "Dimension not in proper units")

/-- Python `coord.Angle(x).degree` on a polygon tuple element: a bare
number raises `UnitsException` (no unit given); an angle-like value yields
its degrees. -/
def angleDegree : AngleInput → Except QueryError ℚ
  | AngleInput.num _ => Except.error (QueryError.unitsException "No unit was given")
  | AngleInput.angle d => Except.ok d

/-- One step of the tuple-conversion comprehension of core.py line 286:
`(coord.Angle(pair[0]).degree, coord.Angle(pair[1]).degree)`, evaluated
left to right; a non-tuple element fails with `TypeError`. -/
def elemToDegPair : PolyElem → Except QueryError (ℚ × ℚ)
  | PolyElem.pair a b => do
      let x ← angleDegree a
      let y ← angleDegree b
      pure (x, y)
  | PolyElem.coordLike _ =>
      Except.error (QueryError.typeError "element is not a tuple")

/-- Python `str()` of a tuple element in the raw formatting path: a number
prints as its decimal rendering, an angle object as its degree value with a
unit suffix. -/
def AngleInput.plainStr : AngleInput → String
  | AngleInput.num q => fmtRat q
  | AngleInput.angle d => fmtRat d ++ " deg"

/-- One step of the raw formatting comprehension of core.py line 289
(`_format_decimal_coords(pair[0], pair[1])` on the unconverted tuples): a
tuple of raw values formats as RA, space, sign-prefixed Dec; the sign
format spec on a non-number raises `ValueError`, and a non-tuple element
raises `TypeError`. -/
def fmtRawPair : PolyElem → Except QueryError String
  | PolyElem.pair a (AngleInput.num d) =>
      Except.ok (a.plainStr ++ " " ++ fmtSigned d)
  | PolyElem.pair _ (AngleInput.angle _) =>
      Except.error (QueryError.valueError "Sign not allowed in string format specifier")
  | PolyElem.coordLike _ =>
      Except.error (QueryError.typeError "element is not a tuple")

/-- A Python list comprehension `[f c for c in l]`: first error aborts. -/
def mapExcept {α β : Type} (f : α → Except QueryError β) : List α → Except QueryError (List β)
  | [] => Except.ok []
  | a :: as => do
      let b ← f a
      let bs ← mapExcept f as
      pure (b :: bs)

/-- The polygon branch of `_parse_spatial` (core.py lines 281-290) that
computes `coordinates_list`: tries `[_parse_coordinates(c) for c in
polygon]`; on `ValueError`/`TypeError`, when the first element is a tuple,
converts every tuple through `coord.Angle(...).degree`, falling back on the
raw tuples when that raises `UnitsException`; when the first element is not
a tuple, `coordinates_list` stays unassigned and the later
`join(coordinates_list)` raises `UnboundLocalError`.  A `None` polygon
raises `TypeError` (iterated in the comprehension, then indexed in the
handler). -/
def polygonCoordinatesList : Option (List PolyElem) → Except QueryError (List String)
  | none => Except.error (QueryError.typeError "NoneType object is not iterable")
  | some polygon =>
    match mapExcept _parse_coordinates polygon with
    | Except.ok l => Except.ok l
    | Except.error e =>
      if isVTError e then
        match polygon with
        | [] => Except.error (QueryError.indexError "list index out of range")
        | first :: _ =>
          match first with
          | PolyElem.pair _ _ =>
            match mapExcept elemToDegPair polygon with
            | Except.ok degs =>
                Except.ok (degs.map fun rd => _format_decimal_coords rd.1 rd.2)
            | Except.error (QueryError.unitsException _) => mapExcept fmtRawPair polygon
            | Except.error e2 => Except.error e2
          | _ => Except.error (QueryError.unboundLocal "coordinates_list")
      else Except.error e

/-- The repeated objstr pattern of `_parse_spatial` (core.py lines 267-270
and 280): the raw `coordinates` value when `_is_coordinate` is false,
otherwise the `_parse_coordinates` formatting of it. -/
def objstrValue (coordinates : Option CoordInput) : Except QueryError PValue := do
  let isC ← _is_coordinate coordinates
  match coordinates, isC with
  | some c, true => do
      let s ← _parse_coordinates (PolyElem.coordLike c)
      pure (PValue.s s)
  | some (CoordInput.str s _), false => pure (PValue.s s)
  | some (CoordInput.coordObj ra dec), false => pure (PValue.rawObj ra dec)
  | none, _ => Except.error (QueryError.typeError "coordinates is None")

/-- Source `Irsa._parse_spatial` (core.py lines 227-297): builds the
mode-specific payload keys.  All-Sky renames the mode to NONE; Cone adds
objstr, radius and radunits; Box adds objstr and size (arc-seconds);
Polygon adds objstr only when coordinates are given, plus the joined
polygon string; any other mode raises `ValueError` with a message naming
the four valid modes (the source message quotes each mode name). -/
def Irsa._parse_spatial (spatial : String) (coordinates : Option CoordInput)
    (radius : Option DimInput := none) (width : Option DimInput := none)
    (polygon : Option (List PolyElem) := none) : Except QueryError Payload :=
  if spatial = "All-Sky" then
    Except.ok [("spatial", PValue.s "NONE")]
  else if spatial = "Cone" ∨ spatial = "Box" then do
    let objstrVal ← objstrValue coordinates
    if spatial = "Cone" then do
      let r ← _parse_dimension radius
      pure [("objstr", objstrVal), ("radius", PValue.q r.value),
            ("radunits", PValue.s r.unit.to_string), ("spatial", PValue.s spatial)]
    else do
      let w ← _parse_dimension width
      pure [("objstr", objstrVal), ("size", PValue.q w.toArcsecValue),
            ("spatial", PValue.s spatial)]
  else if spatial = "Polygon" then do
    let objstrPart ←
      match coordinates with
      | none => pure ([] : Payload)
      | some c => do
          let v ← objstrValue (some c)
          pure [("objstr", v)]
    let coordinates_list ← polygonCoordinatesList polygon
    pure (objstrPart ++
          [("polygon", PValue.s (String.intercalate "," coordinates_list)),
           ("spatial", PValue.s spatial)])
  else
    Except.error (QueryError.valueError
      "Unrecognized spatial query type. Must be one of Cone, Box, Polygon, or All-Sky.")

/-- Modelled from the spec: the configured row limit (module-level
configuration `ROW_LIMIT()`, not part of src); its numeric value does not
affect any payload-structure property. -/
def ROW_LIMIT : ℕ := 500

/-- Modelled from the spec: the configured service base URL
(`IRSA_SERVER()`, not part of src), the CatQuery endpoint named in the
module comment. -/
def IRSA_URL : String := "http://irsa.ipac.caltech.edu/cgi-bin/Gator/nph-query"

/-- Source `Irsa._args_to_payload` (core.py lines 299-316): the common
payload of every query: catalog name, fixed output format 3, row limit. -/
def Irsa._args_to_payload (catalog : String) : Payload :=
  [("catalog", PValue.s catalog), ("outfmt", PValue.n 3),
   ("outrows", PValue.n ROW_LIMIT)]

/-- Result of `query_region_async`: either the payload itself (the
`get_query_payload` short-circuit) or a record that an HTTP GET request
with the payload was sent (`commons.send_request`). -/
inductive QueryResult
  | payload (p : Payload)
  | request (url : String) (p : Payload)
deriving DecidableEq

/-- Source `Irsa.query_region_async` (core.py lines 169-225): requires a
catalog name, merges the common payload with the spatial payload, and
either returns the payload (`get_query_payload`) or performs the HTTP GET
request. -/
def Irsa.query_region_async (coordinates : Option CoordInput := none)
    (catalog : Option String := none) (spatial : String := "Cone")
    (radius : DimInput := DimInput.quantity 10 AngUnit.arcsec)
    (width : Option DimInput := none) (polygon : Option (List PolyElem) := none)
    (get_query_payload : Bool := false) : Except QueryError QueryResult :=
  match catalog with
  | none => Except.error (QueryError.exception "Catalog name is required!")
  | some cat => do
    let spat ← Irsa._parse_spatial spatial coordinates (some radius) width polygon
    let request_payload := (Irsa._args_to_payload cat).update spat
    if get_query_payload then pure (QueryResult.payload request_payload)
    else pure (QueryResult.request IRSA_URL request_payload)

/-- Outcome of `votable.parse(...).get_first_table()` on a response body:
the external VOTable parser is an oracle carried with the response; `ok
rows` is a first table that converts to a table with `rows` rows, `err` is
any parse exception. -/
inductive VOTableParse
  | ok (rows : ℕ)
  | err (msg : String)
deriving DecidableEq

/-- An HTTP response: its body text and the VOTable-parser outcome on that
body. -/
structure Response where
  content : String
  votable : VOTableParse
deriving DecidableEq

/-- Result of `_parse_result`: a parsed table (row count) or the raw body
returned as the fallback after a parse failure. -/
inductive ParseOutcome
  | table (rows : ℕ)
  | raw (content : String)
deriving DecidableEq

/-- Source `Irsa._parse_result` (core.py lines 318-369): raises on the two
service error substrings and on an empty body; then parses the body as a
VOTable, returning the raw body (after logging) when parsing fails, and the
first table otherwise. -/
def Irsa._parse_result (response : Response) (verbose : Bool := false) :
    Except QueryError ParseOutcome :=
  if strContains response.content "The catalog is not on the list" then
    Except.error (QueryError.exception "Catalog not found")
  else if strContains response.content "Either wrong or missing coordinate/object name" then
    Except.error (QueryError.exception "Malformed coordinate/object name")
  else if response.content.length = 0 then
    Except.error (QueryError.exception "The IRSA server sent back an empty reply")
  else
    match response.votable with
    | VOTableParse.err _ => Except.ok (ParseOutcome.raw response.content)
    | VOTableParse.ok rows => Except.ok (ParseOutcome.table rows)

/-- Result of `query_region`: the `query_region_async` result passed
through unchanged (the `get_query_payload` short-circuit), or the parsed
table / raw fallback from `_parse_result`. -/
inductive RegionResult
  | result (r : QueryResult)
  | table (rows : ℕ)
  | raw (content : String)
deriving DecidableEq

/-- Source `Irsa.query_region` (core.py lines 117-167): calls
`query_region_async`, returns its result unchanged when
`get_query_payload`, otherwise parses the HTTP response; `net` is the
external network collaborator mapping the sent payload to the response. -/
def Irsa.query_region (net : Payload → Response) (coordinates : Option CoordInput := none)
    (catalog : Option String := none) (spatial : String := "Cone")
    (radius : DimInput := DimInput.quantity 10 AngUnit.arcsec)
    (width : Option DimInput := none) (polygon : Option (List PolyElem) := none)
    (get_query_payload : Bool := false) (verbose : Bool := false) :
    Except QueryError RegionResult := do
  let response ← Irsa.query_region_async coordinates catalog spatial radius width
      polygon get_query_payload
  if get_query_payload then pure (RegionResult.result response)
  else
    match response with
    | QueryResult.payload _ =>
        Except.error (QueryError.typeError "payload dict has no response content")
    | QueryResult.request _ p =>
      match Irsa._parse_result (net p) verbose with
      | Except.ok (ParseOutcome.table rows) => pure (RegionResult.table rows)
      | Except.ok (ParseOutcome.raw c) => pure (RegionResult.raw c)
      | Except.error e => Except.error e

/-! ## Computation lemmas for the `Except` monad and the payload builders -/

@[simp] theorem exc_ok_bind {α β : Type} (a : α) (f : α → Except QueryError β) :
    (Except.ok a >>= f) = f a := rfl

@[simp] theorem exc_error_bind {α β : Type} (e : QueryError) (f : α → Except QueryError β) :
    ((Except.error e : Except QueryError α) >>= f) = Except.error e := rfl

@[simp] theorem exc_pure {α : Type} (a : α) :
    (pure a : Except QueryError α) = Except.ok a := rfl

/-- Shape of a successful All-Sky spatial payload: only the spatial key,
with the NONE token. -/
theorem parse_spatial_allsky_shape (c : Option CoordInput) (r w : Option DimInput)
    (poly : Option (List PolyElem)) (q : Payload)
    (h : Irsa._parse_spatial "All-Sky" c r w poly = Except.ok q) :
    q = [("spatial", PValue.s "NONE")] := by
  unfold Irsa._parse_spatial at h
  simp at h
  exact h.symm

/-- Shape of a successful Cone spatial payload: objstr, radius, radunits,
spatial, with the radius and unit string of the resolved dimension. -/
theorem parse_spatial_cone_shape (c : Option CoordInput) (r w : Option DimInput)
    (poly : Option (List PolyElem)) (q : Payload)
    (h : Irsa._parse_spatial "Cone" c r w poly = Except.ok q) :
    ∃ v rq, _parse_dimension r = Except.ok rq ∧
      q = [("objstr", v), ("radius", PValue.q rq.value),
           ("radunits", PValue.s rq.unit.to_string), ("spatial", PValue.s "Cone")] := by
  unfold Irsa._parse_spatial at h
  simp at h
  cases hobj : objstrValue c with
  | error e => rw [hobj] at h; simp at h
  | ok v =>
    rw [hobj] at h
    cases hr : _parse_dimension r with
    | error e => rw [hr] at h; simp at h
    | ok rq =>
      rw [hr] at h
      simp at h
      exact ⟨v, rq, rfl, h.symm⟩

/-- Shape of a successful Box spatial payload: objstr, size, spatial, with
the size being the resolved width in arc-seconds. -/
theorem parse_spatial_box_shape (c : Option CoordInput) (r w : Option DimInput)
    (poly : Option (List PolyElem)) (q : Payload)
    (h : Irsa._parse_spatial "Box" c r w poly = Except.ok q) :
    ∃ v wq, _parse_dimension w = Except.ok wq ∧
      q = [("objstr", v), ("size", PValue.q wq.toArcsecValue),
           ("spatial", PValue.s "Box")] := by
  unfold Irsa._parse_spatial at h
  simp at h
  cases hobj : objstrValue c with
  | error e => rw [hobj] at h; simp at h
  | ok v =>
    rw [hobj] at h
    cases hw : _parse_dimension w with
    | error e => rw [hw] at h; simp at h
    | ok wq =>
      rw [hw] at h
      simp at h
      exact ⟨v, wq, rfl, h.symm⟩

/-- Shape of a successful Polygon spatial payload with center coordinates:
objstr, polygon, spatial. -/
theorem parse_spatial_polygon_some_shape (c : CoordInput) (r w : Option DimInput)
    (poly : Option (List PolyElem)) (q : Payload)
    (h : Irsa._parse_spatial "Polygon" (some c) r w poly = Except.ok q) :
    ∃ v l, polygonCoordinatesList poly = Except.ok l ∧
      q = [("objstr", v), ("polygon", PValue.s (String.intercalate "," l)),
           ("spatial", PValue.s "Polygon")] := by
  unfold Irsa._parse_spatial at h
  simp at h
  cases hobj : objstrValue (some c) with
  | error e => rw [hobj] at h; simp at h
  | ok v =>
    rw [hobj] at h
    cases hl : polygonCoordinatesList poly with
    | error e => rw [hl] at h; simp at h
    | ok l =>
      rw [hl] at h
      simp at h
      exact ⟨v, l, rfl, h.symm⟩

/-- Shape of a successful Polygon spatial payload without center
coordinates: polygon and spatial only, no objstr. -/
theorem parse_spatial_polygon_none_shape (r w : Option DimInput)
    (poly : Option (List PolyElem)) (q : Payload)
    (h : Irsa._parse_spatial "Polygon" none r w poly = Except.ok q) :
    ∃ l, polygonCoordinatesList poly = Except.ok l ∧
      q = [("polygon", PValue.s (String.intercalate "," l)),
           ("spatial", PValue.s "Polygon")] := by
  unfold Irsa._parse_spatial at h
  simp at h
  cases hl : polygonCoordinatesList poly with
  | error e => rw [hl] at h; simp at h
  | ok l =>
    rw [hl] at h
    simp at h
    exact ⟨l, rfl, h.symm⟩

/-- A successful `query_region_async` call with `get_query_payload` set
decomposes into a successful spatial parse merged over the common
payload. -/
theorem query_region_async_ok_payload (c : Option CoordInput) (cat : String)
    (spatial : String) (radius : DimInput) (w : Option DimInput)
    (poly : Option (List PolyElem)) (p : Payload)
    (h : Irsa.query_region_async c (some cat) spatial radius w poly true =
      Except.ok (QueryResult.payload p)) :
    ∃ q, Irsa._parse_spatial spatial c (some radius) w poly = Except.ok q ∧
      p = (Irsa._args_to_payload cat).update q := by
  unfold Irsa.query_region_async at h
  cases hq : Irsa._parse_spatial spatial c (some radius) w poly with
  | error e => rw [hq] at h; simp at h
  | ok q =>
    rw [hq] at h
    simp at h
    exact ⟨q, rfl, h.symm⟩

/-- A comprehension over a list whose steps all succeed collects the
per-element results in order. -/
theorem mapExcept_ok_of_forall {α β : Type} (f : α → Except QueryError β) (g : α → β)
    (l : List α) (h : ∀ a ∈ l, f a = Except.ok (g a)) :
    mapExcept f l = Except.ok (l.map g) := by
  induction l with
  | nil => rfl
  | cons a as ih =>
    simp only [mapExcept, h a (List.mem_cons_self a as), exc_ok_bind,
      ih fun x hx => h x (List.mem_cons_of_mem a hx), exc_pure, List.map_cons]

/-- A comprehension over a mapped list is the comprehension of the
composition. -/
theorem mapExcept_map {α γ β : Type} (m : α → γ) (f : γ → Except QueryError β) (l : List α) :
    mapExcept f (l.map m) = mapExcept (fun a => f (m a)) l := by
  induction l with
  | nil => rfl
  | cons a as ih => simp only [List.map_cons, mapExcept, ih]

/-- The polygon list branch on a list of bare-number tuples: the
coordinate parse fails with `TypeError` at the first tuple, the
angle-conversion fallback fails with `UnitsException` at the first bare
number, and the raw formatting path formats every tuple. -/
theorem polygonCoordinatesList_num_pairs (pts : List (ℚ × ℚ)) :
    polygonCoordinatesList (some (pts.map fun rd =>
        PolyElem.pair (AngleInput.num rd.1) (AngleInput.num rd.2))) =
      Except.ok (pts.map fun rd => _format_decimal_coords rd.1 rd.2) := by
  cases pts with
  | nil => rfl
  | cons rd rest =>
    have h1 : mapExcept _parse_coordinates ((rd :: rest).map fun p =>
        PolyElem.pair (AngleInput.num p.1) (AngleInput.num p.2)) =
        Except.error (QueryError.typeError "Argument cannot be parsed as a coordinate") := by
      simp [mapExcept, _parse_coordinates]
    have h2 : mapExcept elemToDegPair ((rd :: rest).map fun p =>
        PolyElem.pair (AngleInput.num p.1) (AngleInput.num p.2)) =
        Except.error (QueryError.unitsException "No unit was given") := by
      simp [mapExcept, elemToDegPair, angleDegree]
    have h3 : mapExcept fmtRawPair ((rd :: rest).map fun p =>
        PolyElem.pair (AngleInput.num p.1) (AngleInput.num p.2)) =
        Except.ok ((rd :: rest).map fun p => _format_decimal_coords p.1 p.2) := by
      rw [mapExcept_map]
      exact mapExcept_ok_of_forall _ _ _ fun a _ => rfl
    simp only [List.map_cons] at h1 h2 h3 ⊢
    simp only [polygonCoordinatesList, h1, h2, h3, isVTError, if_true]

/-- A decimal digit character is never a comma. -/
theorem digitChar_ne_comma (n : ℕ) : Nat.digitChar n ≠ ',' := by
  by_cases h : n < 16
  · interval_cases n <;> decide
  · unfold Nat.digitChar
    repeat rw [if_neg (by omega)]
    decide

/-- The integer-digit renderer never emits a comma. -/
theorem natDigitsAux_no_comma (fuel : ℕ) : ∀ n, ¬ ',' ∈ natDigitsAux fuel n := by
  induction fuel with
  | zero => intro n; simp [natDigitsAux]
  | succ k ih =>
    intro n
    unfold natDigitsAux
    split
    · simp only [List.mem_singleton]
      intro h
      exact digitChar_ne_comma n h.symm
    · simp only [List.mem_append, List.mem_singleton]
      rintro (h | h)
      · exact ih _ h
      · exact digitChar_ne_comma _ h.symm

/-- The fractional-digit renderer never emits a comma. -/
theorem fracDigits_no_comma (d : ℕ) (fuel : ℕ) : ∀ r, ¬ ',' ∈ fracDigits d r fuel := by
  induction fuel with
  | zero => intro r; simp [fracDigits]
  | succ k ih =>
    intro r
    unfold fracDigits
    split
    · simp
    · simp only [List.mem_cons]
      rintro (h | h)
      · exact digitChar_ne_comma _ h.symm
      · exact ih _ h

/-- The characters of a character-list string are that list. -/
theorem data_mk (l : List Char) : (String.mk l).data = l := rfl

/-- The decimal rendering of a rational never contains a comma. -/
theorem fmtRat_no_comma (x : ℚ) : ¬ ',' ∈ (fmtRat x).data := by
  unfold fmtRat
  simp only [String.data_append, List.mem_append, data_mk]
  rintro (((h | h) | h) | h)
  · revert h
    split
    · decide
    · decide
  · exact natDigitsAux_no_comma _ _ (by simpa [natDigits] using h)
  · revert h
    decide
  · revert h
    split
    · decide
    · exact fun h => fracDigits_no_comma _ _ _ h

/-! ## Claim theorems -/

/-- C1: for every supported spatial mode, the payload assembled by
`query_region_async` contains exactly the keys `catalog`, `outfmt`,
`outrows`, `spatial` plus the mode-specific keys: Cone adds `objstr`,
`radius`, `radunits`; Box adds `objstr`, `size`; Polygon adds `polygon`
with `objstr` only when center coordinates are given; All-Sky adds
nothing; and no other keys appear. -/
theorem C1_payload_key_sets (coordinates : Option CoordInput) (cat : String)
    (spatial : String) (radius : DimInput) (width : Option DimInput)
    (polygon : Option (List PolyElem)) (p : Payload)
    (h : Irsa.query_region_async coordinates (some cat) spatial radius width polygon true =
      Except.ok (QueryResult.payload p)) :
    (spatial = "Cone" →
      p.keys = ["catalog", "outfmt", "outrows", "objstr", "radius", "radunits", "spatial"]) ∧
    (spatial = "Box" →
      p.keys = ["catalog", "outfmt", "outrows", "objstr", "size", "spatial"]) ∧
    (spatial = "Polygon" → ∀ c0, coordinates = some c0 →
      p.keys = ["catalog", "outfmt", "outrows", "objstr", "polygon", "spatial"]) ∧
    (spatial = "Polygon" → coordinates = none →
      p.keys = ["catalog", "outfmt", "outrows", "polygon", "spatial"]) ∧
    (spatial = "All-Sky" →
      p.keys = ["catalog", "outfmt", "outrows", "spatial"]) := by
  obtain ⟨q, hq, hp⟩ := query_region_async_ok_payload _ _ _ _ _ _ _ h
  subst hp
  refine ⟨?_, ?_, ?_, ?_, ?_⟩
  · rintro rfl
    obtain ⟨v, rq, -, rfl⟩ := parse_spatial_cone_shape _ _ _ _ _ hq
    rfl
  · rintro rfl
    obtain ⟨v, wq, -, rfl⟩ := parse_spatial_box_shape _ _ _ _ _ hq
    rfl
  · rintro rfl c0 rfl
    obtain ⟨v, l, -, rfl⟩ := parse_spatial_polygon_some_shape _ _ _ _ _ hq
    rfl
  · rintro rfl rfl
    obtain ⟨l, -, rfl⟩ := parse_spatial_polygon_none_shape _ _ _ _ hq
    rfl
  · rintro rfl
    have hsh := parse_spatial_allsky_shape _ _ _ _ _ hq
    subst hsh
    rfl

/-- C2: a Polygon query on a list of N decimal-degree coordinate pairs
yields a payload whose polygon value is exactly the N per-pair tokens
joined by commas; each token is the RA rendering, a space, and the
sign-prefixed Dec rendering (an explicit plus sign for non-negative
declination); the token list has length N and no token contains a comma. -/
theorem C2_polygon_token_string (pts : List (ℚ × ℚ)) (cat : String) :
    Irsa.query_region_async none (some cat) "Polygon"
        (DimInput.quantity 10 AngUnit.arcsec) none
        (some (pts.map fun rd => PolyElem.pair (AngleInput.num rd.1) (AngleInput.num rd.2)))
        true =
      Except.ok (QueryResult.payload
        [("catalog", PValue.s cat), ("outfmt", PValue.n 3), ("outrows", PValue.n ROW_LIMIT),
         ("polygon", PValue.s (String.intercalate ","
            (pts.map fun rd => fmtRat rd.1 ++ " " ++
              (if rd.2 < 0 then fmtRat rd.2 else "+" ++ fmtRat rd.2)))),
         ("spatial", PValue.s "Polygon")]) ∧
    (pts.map fun rd => fmtRat rd.1 ++ " " ++
        (if rd.2 < 0 then fmtRat rd.2 else "+" ++ fmtRat rd.2)).length = pts.length ∧
    ∀ t ∈ pts.map fun rd => fmtRat rd.1 ++ " " ++
        (if rd.2 < 0 then fmtRat rd.2 else "+" ++ fmtRat rd.2), ¬ ',' ∈ t.data := by
  refine ⟨?_, List.length_map _ _, ?_⟩
  · have hps : Irsa._parse_spatial "Polygon" none
        (some (DimInput.quantity 10 AngUnit.arcsec)) none
        (some (pts.map fun rd => PolyElem.pair (AngleInput.num rd.1) (AngleInput.num rd.2))) =
        Except.ok [("polygon", PValue.s (String.intercalate ","
            (pts.map fun rd => _format_decimal_coords rd.1 rd.2))),
          ("spatial", PValue.s "Polygon")] := by
      unfold Irsa._parse_spatial
      simp [polygonCoordinatesList_num_pairs]
    unfold Irsa.query_region_async
    rw [hps]
    rfl
  · intro t ht
    simp only [List.mem_map] at ht
    obtain ⟨rd, -, rfl⟩ := ht
    simp only [String.data_append, List.mem_append]
    rintro ((h | h) | h)
    · exact fmtRat_no_comma _ h
    · revert h; decide
    · revert h
      split
      · exact fun h => fmtRat_no_comma _ h
      · simp only [String.data_append, List.mem_append]
        rintro (h | h)
        · revert h; decide
        · exact fmtRat_no_comma _ h

/-- C3: a Cone query with the radius unspecified uses the default of 10
arc-seconds, giving radius 10 and radunits arcsec in the payload; and for
every accepted radius input, the radunits value is exactly the unit string
of the angle resolved by `_parse_dimension`, preserved verbatim. -/
theorem C3_cone_radius_default_and_unit_string :
    (∀ (ra dec : ℚ) (cat : String),
      Irsa.query_region_async (some (CoordInput.coordObj ra dec)) (some cat) "Cone" =
        Except.ok (QueryResult.request IRSA_URL
          [("catalog", PValue.s cat), ("outfmt", PValue.n 3), ("outrows", PValue.n ROW_LIMIT),
           ("objstr", PValue.s (_format_decimal_coords ra dec)),
           ("radius", PValue.q 10), ("radunits", PValue.s "arcsec"),
           ("spatial", PValue.s "Cone")])) ∧
    (∀ (c : Option CoordInput) (radius w : Option DimInput) (poly : Option (List PolyElem))
       (rq : Quantity) (q : Payload),
      _parse_dimension radius = Except.ok rq →
      Irsa._parse_spatial "Cone" c radius w poly = Except.ok q →
      List.lookup "radius" q = some (PValue.q rq.value) ∧
      List.lookup "radunits" q = some (PValue.s rq.unit.to_string)) := by
  constructor
  · intro ra dec cat
    rfl
  · intro c radius w poly rq q h1 h2
    obtain ⟨v, rq2, hrq2, rfl⟩ := parse_spatial_cone_shape _ _ _ _ _ h2
    rw [h1] at hrq2
    injection hrq2 with h
    subst h
    exact ⟨rfl, rfl⟩

/-- Witness for C3 at a concrete radius in arc-minutes. -/
theorem C3_cone_radius_witness :
    (_parse_dimension (some (DimInput.quantity 3 AngUnit.arcmin)) =
      Except.ok (Quantity.mk 3 AngUnit.arcmin)) ∧
    (Irsa._parse_spatial "Cone" (some (CoordInput.coordObj 1 2))
        (some (DimInput.quantity 3 AngUnit.arcmin)) none none =
      Except.ok [("objstr", PValue.s "1.0 +2.0"), ("radius", PValue.q 3),
                 ("radunits", PValue.s "arcmin"), ("spatial", PValue.s "Cone")]) ∧
    (List.lookup "radius" [("objstr", PValue.s "1.0 +2.0"), ("radius", PValue.q 3),
        ("radunits", PValue.s "arcmin"), ("spatial", PValue.s "Cone")] =
      some (PValue.q 3) ∧
     List.lookup "radunits" [("objstr", PValue.s "1.0 +2.0"), ("radius", PValue.q 3),
        ("radunits", PValue.s "arcmin"), ("spatial", PValue.s "Cone")] =
      some (PValue.s "arcmin")) :=
  ⟨rfl, rfl, C3_cone_radius_default_and_unit_string.2
    (some (CoordInput.coordObj 1 2)) (some (DimInput.quantity 3 AngUnit.arcmin)) none none
    (Quantity.mk 3 AngUnit.arcmin) _ rfl rfl⟩

/-- For every angular quantity input, the dimension resolver succeeds and
the resolved quantity in arc-seconds is the input value times the input
unit conversion to arc-seconds. -/
theorem parse_dimension_quantity_to_arcsec (v : ℚ) (un : AngUnit) :
    ∃ wq, _parse_dimension (some (DimInput.quantity v un)) = Except.ok wq ∧
      wq.toArcsecValue = v * un.degFactor * 3600 := by
  cases un
  · exact ⟨⟨v, AngUnit.arcsec⟩, rfl, rfl⟩
  · exact ⟨⟨v, AngUnit.arcmin⟩, rfl, rfl⟩
  · exact ⟨⟨v, AngUnit.deg⟩, rfl, rfl⟩
  · refine ⟨⟨v * 15, AngUnit.deg⟩, rfl, ?_⟩
    show v * 15 * 1 * 3600 = v * (15 : ℚ) * 3600
    ring

/-- C4: for every accepted width input, the Box payload size value is the
resolved width converted to arc-seconds; in particular, for a quantity
width in any angular unit the size is the value times the unit conversion
into arc-seconds, regardless of the supplied unit. -/
theorem C4_box_size_arcseconds :
    (∀ (c : Option CoordInput) (r width : Option DimInput) (poly : Option (List PolyElem))
       (wq : Quantity) (q : Payload),
      _parse_dimension width = Except.ok wq →
      Irsa._parse_spatial "Box" c r width poly = Except.ok q →
      List.lookup "size" q = some (PValue.q wq.toArcsecValue)) ∧
    (∀ (c : Option CoordInput) (r : Option DimInput) (v : ℚ) (un : AngUnit)
       (poly : Option (List PolyElem)) (q : Payload),
      Irsa._parse_spatial "Box" c r (some (DimInput.quantity v un)) poly = Except.ok q →
      List.lookup "size" q = some (PValue.q (v * un.degFactor * 3600))) := by
  have part1 : ∀ (c : Option CoordInput) (r width : Option DimInput)
      (poly : Option (List PolyElem)) (wq : Quantity) (q : Payload),
      _parse_dimension width = Except.ok wq →
      Irsa._parse_spatial "Box" c r width poly = Except.ok q →
      List.lookup "size" q = some (PValue.q wq.toArcsecValue) := by
    intro c r width poly wq q h1 h2
    obtain ⟨v, wq2, hw, rfl⟩ := parse_spatial_box_shape _ _ _ _ _ h2
    rw [h1] at hw
    injection hw with h
    subst h
    rfl
  refine ⟨part1, ?_⟩
  intro c r v un poly q h
  obtain ⟨wq, hw, harith⟩ := parse_dimension_quantity_to_arcsec v un
  have := part1 c r _ poly wq q hw h
  rw [harith] at this
  exact this

/-- Witness for C4 at a width of 2 arc-minutes (size 120 arc-seconds). -/
theorem C4_box_size_witness :
    (Irsa._parse_spatial "Box" (some (CoordInput.str "M31" CoordParse.valueErr)) none
        (some (DimInput.quantity 2 AngUnit.arcmin)) none =
      Except.ok [("objstr", PValue.s "M31"), ("size", PValue.q 120),
                 ("spatial", PValue.s "Box")]) ∧
    List.lookup "size" [("objstr", PValue.s "M31"), ("size", PValue.q 120),
        ("spatial", PValue.s "Box")] =
      some (PValue.q (2 * AngUnit.arcmin.degFactor * 3600)) :=
  by
  have hv : (Quantity.mk 2 AngUnit.arcmin).toArcsecValue = 120 := by
    show (2 : ℚ) * (1 / 60) * 3600 = 120
    norm_num
  have h1 : Irsa._parse_spatial "Box" (some (CoordInput.str "M31" CoordParse.valueErr)) none
      (some (DimInput.quantity 2 AngUnit.arcmin)) none =
      Except.ok [("objstr", PValue.s "M31"), ("size", PValue.q 120),
                 ("spatial", PValue.s "Box")] := by
    rw [← hv]
    rfl
  exact ⟨h1, C4_box_size_arcseconds.2 (some (CoordInput.str "M31" CoordParse.valueErr)) none
    2 AngUnit.arcmin none _ h1⟩

/-- Witness for C1 at a concrete Cone query. -/
theorem C1_payload_key_sets_witness :
    (Irsa.query_region_async (some (CoordInput.coordObj 10 20)) (some "fp_psc") "Cone"
        (DimInput.quantity 5 AngUnit.arcsec) none none true =
      Except.ok (QueryResult.payload
        [("catalog", PValue.s "fp_psc"), ("outfmt", PValue.n 3),
         ("outrows", PValue.n 500), ("objstr", PValue.s "10.0 +20.0"),
         ("radius", PValue.q 5), ("radunits", PValue.s "arcsec"),
         ("spatial", PValue.s "Cone")])) ∧
    Payload.keys
        [("catalog", PValue.s "fp_psc"), ("outfmt", PValue.n 3),
         ("outrows", PValue.n 500), ("objstr", PValue.s "10.0 +20.0"),
         ("radius", PValue.q 5), ("radunits", PValue.s "arcsec"),
         ("spatial", PValue.s "Cone")] =
      ["catalog", "outfmt", "outrows", "objstr", "radius", "radunits", "spatial"] :=
  ⟨by rfl, (C1_payload_key_sets (some (CoordInput.coordObj 10 20)) "fp_psc" "Cone"
      (DimInput.quantity 5 AngUnit.arcsec) none none _ (by rfl)).1 rfl⟩

/-- C5: every spatial argument other than Cone, Box, Polygon and All-Sky
makes `_parse_spatial` (and hence `query_region_async`) fail with a
ValueError whose message names the four valid modes, and no payload is
produced. -/
theorem C5_unrecognized_spatial_mode (spatial : String)
    (h1 : spatial ≠ "Cone") (h2 : spatial ≠ "Box") (h3 : spatial ≠ "Polygon")
    (h4 : spatial ≠ "All-Sky") (c : Option CoordInput) (r w : Option DimInput)
    (poly : Option (List PolyElem)) (cat : String) (radius : DimInput) (gqp : Bool) :
    Irsa._parse_spatial spatial c r w poly = Except.error (QueryError.valueError
      "Unrecognized spatial query type. Must be one of Cone, Box, Polygon, or All-Sky.") ∧
    Irsa.query_region_async c (some cat) spatial radius w poly gqp =
      Except.error (QueryError.valueError
      "Unrecognized spatial query type. Must be one of Cone, Box, Polygon, or All-Sky.") ∧
    (strContains
        "Unrecognized spatial query type. Must be one of Cone, Box, Polygon, or All-Sky."
        "Cone" = true ∧
     strContains
        "Unrecognized spatial query type. Must be one of Cone, Box, Polygon, or All-Sky."
        "Box" = true ∧
     strContains
        "Unrecognized spatial query type. Must be one of Cone, Box, Polygon, or All-Sky."
        "Polygon" = true ∧
     strContains
        "Unrecognized spatial query type. Must be one of Cone, Box, Polygon, or All-Sky."
        "All-Sky" = true) := by
  have hps : ∀ r0 : Option DimInput, Irsa._parse_spatial spatial c r0 w poly =
      Except.error (QueryError.valueError
      "Unrecognized spatial query type. Must be one of Cone, Box, Polygon, or All-Sky.") := by
    intro r0
    unfold Irsa._parse_spatial
    rw [if_neg h4, if_neg (not_or.mpr ⟨h1, h2⟩), if_neg h3]
  refine ⟨hps r, ?_, by decide, by decide, by decide, by decide⟩
  simp [Irsa.query_region_async, hps (some radius)]

/-- Witness for C5 at the spatial mode Triangle. -/
theorem C5_unrecognized_spatial_witness :
    (("Triangle" : String) ≠ "Cone" ∧ ("Triangle" : String) ≠ "Box" ∧
     ("Triangle" : String) ≠ "Polygon" ∧ ("Triangle" : String) ≠ "All-Sky") ∧
    Irsa._parse_spatial "Triangle" none none none none =
      Except.error (QueryError.valueError
        "Unrecognized spatial query type. Must be one of Cone, Box, Polygon, or All-Sky.") :=
  ⟨⟨by decide, by decide, by decide, by decide⟩,
   (C5_unrecognized_spatial_mode "Triangle" (by decide) (by decide) (by decide) (by decide)
     none none none none "fp_psc" (DimInput.quantity 10 AngUnit.arcsec) false).1⟩

/-- C6: every response body containing the literal catalog-not-on-the-list
substring makes `_parse_result` raise the catalog-not-found error,
regardless of any other content of the body or its parse outcome. -/
theorem C6_catalog_not_found (response : Response) (verbose : Bool)
    (h : strContains response.content "The catalog is not on the list" = true) :
    Irsa._parse_result response verbose =
      Except.error (QueryError.exception "Catalog not found") := by
  unfold Irsa._parse_result
  rw [if_pos h]

/-- Witness for C6 at a body that would otherwise parse as a table. -/
theorem C6_catalog_not_found_witness :
    (strContains "error: The catalog is not on the list!" "The catalog is not on the list"
      = true) ∧
    Irsa._parse_result ⟨"error: The catalog is not on the list!", VOTableParse.ok 3⟩ false =
      Except.error (QueryError.exception "Catalog not found") :=
  ⟨by decide, C6_catalog_not_found ⟨"error: The catalog is not on the list!", VOTableParse.ok 3⟩
    false (by decide)⟩

/-- C7: with `get_query_payload` set, `query_region_async` returns the
assembled payload mapping itself (never a request), and `query_region`
returns that same payload with a result independent of the network
collaborator, so no network call is performed. -/
theorem C7_get_query_payload_short_circuit (c : Option CoordInput) (cat : String)
    (spatial : String) (radius : DimInput) (w : Option DimInput)
    (poly : Option (List PolyElem)) (q : Payload)
    (h : Irsa._parse_spatial spatial c (some radius) w poly = Except.ok q) :
    Irsa.query_region_async c (some cat) spatial radius w poly true =
      Except.ok (QueryResult.payload ((Irsa._args_to_payload cat).update q)) ∧
    ∀ (net net2 : Payload → Response) (verbose : Bool),
      Irsa.query_region net c (some cat) spatial radius w poly true verbose =
        Except.ok (RegionResult.result (QueryResult.payload
          ((Irsa._args_to_payload cat).update q))) ∧
      Irsa.query_region net c (some cat) spatial radius w poly true verbose =
        Irsa.query_region net2 c (some cat) spatial radius w poly true verbose := by
  have hasync : Irsa.query_region_async c (some cat) spatial radius w poly true =
      Except.ok (QueryResult.payload ((Irsa._args_to_payload cat).update q)) := by
    simp [Irsa.query_region_async, h]
  refine ⟨hasync, ?_⟩
  intro net net2 verbose
  have hreg : ∀ (n : Payload → Response),
      Irsa.query_region n c (some cat) spatial radius w poly true verbose =
        Except.ok (RegionResult.result (QueryResult.payload
          ((Irsa._args_to_payload cat).update q))) := by
    intro n
    simp [Irsa.query_region, hasync]
  exact ⟨hreg net, (hreg net).trans (hreg net2).symm⟩

/-- Witness for C7 at a concrete All-Sky query. -/
theorem C7_get_query_payload_witness :
    (Irsa._parse_spatial "All-Sky" none (some (DimInput.quantity 10 AngUnit.arcsec))
        none none = Except.ok [("spatial", PValue.s "NONE")]) ∧
    Irsa.query_region_async none (some "fp_psc") "All-Sky"
        (DimInput.quantity 10 AngUnit.arcsec) none none true =
      Except.ok (QueryResult.payload ((Irsa._args_to_payload "fp_psc").update
        [("spatial", PValue.s "NONE")])) :=
  ⟨rfl, (C7_get_query_payload_short_circuit none "fp_psc" "All-Sky"
    (DimInput.quantity 10 AngUnit.arcsec) none none _ rfl).1⟩

/-- C8: every non-empty response body that passes the two error-substring
checks but fails VOTable parsing is returned raw instead of raising. -/
theorem C8_votable_parse_fallback (response : Response) (verbose : Bool) (msg : String)
    (h1 : strContains response.content "The catalog is not on the list" = false)
    (h2 : strContains response.content "Either wrong or missing coordinate/object name" = false)
    (h3 : response.content.length ≠ 0)
    (h4 : response.votable = VOTableParse.err msg) :
    Irsa._parse_result response verbose = Except.ok (ParseOutcome.raw response.content) := by
  unfold Irsa._parse_result
  rw [if_neg (by simp [h1]), if_neg (by simp [h2]), if_neg h3, h4]

/-- Witness for C8 at a concrete malformed body. -/
theorem C8_votable_parse_fallback_witness :
    (strContains "some broken body" "The catalog is not on the list" = false) ∧
    (strContains "some broken body" "Either wrong or missing coordinate/object name" = false) ∧
    ("some broken body".length ≠ 0) ∧
    Irsa._parse_result ⟨"some broken body", VOTableParse.err "oops"⟩ false =
      Except.ok (ParseOutcome.raw "some broken body") :=
  ⟨by decide, by decide, by decide,
   C8_votable_parse_fallback ⟨"some broken body", VOTableParse.err "oops"⟩ false "oops"
     (by decide) (by decide) (by decide) rfl⟩

/-- The dimension resolver only ever returns the units arcsec, arcmin or
deg: any other angular unit is converted to degrees, and string inputs are
parsed to degrees. -/
theorem parse_dimension_unit_mem (d : Option DimInput) (rq : Quantity)
    (h : _parse_dimension d = Except.ok rq) :
    rq.unit = AngUnit.arcsec ∨ rq.unit = AngUnit.arcmin ∨ rq.unit = AngUnit.deg := by
  match d with
  | some (DimInput.quantity v un) =>
    simp only [_parse_dimension] at h
    by_cases hm : un = AngUnit.arcsec ∨ un = AngUnit.arcmin ∨ un = AngUnit.deg
    · rw [if_pos hm] at h
      injection h with h
      subst h
      exact hm
    · rw [if_neg hm] at h
      injection h with h
      subst h
      right; right; rfl
  | some (DimInput.nonAngular v) => exact absurd h (by simp [_parse_dimension])
  | some (DimInput.str s (some dg)) =>
    simp only [_parse_dimension] at h
    injection h with h
    subst h
    right; right; rfl
  | some (DimInput.str s none) => exact absurd h (by simp [_parse_dimension])
  | none => exact absurd h (by simp [_parse_dimension])

/-- C9: every normal return of `_parse_dimension` carries one of the units
arcsec, arcmin or deg, and consequently every Cone payload radunits value
is one of those three unit strings. -/
theorem C9_resolved_dimension_units :
    (∀ (d : Option DimInput) (rq : Quantity),
      _parse_dimension d = Except.ok rq →
      rq.unit = AngUnit.arcsec ∨ rq.unit = AngUnit.arcmin ∨ rq.unit = AngUnit.deg) ∧
    (∀ (c : Option CoordInput) (r w : Option DimInput) (poly : Option (List PolyElem))
       (q : Payload) (v : PValue),
      Irsa._parse_spatial "Cone" c r w poly = Except.ok q →
      List.lookup "radunits" q = some v →
      v = PValue.s "arcsec" ∨ v = PValue.s "arcmin" ∨ v = PValue.s "deg") := by
  refine ⟨parse_dimension_unit_mem, ?_⟩
  intro c r w poly q v h hv
  obtain ⟨ov, rq, hrq, rfl⟩ := parse_spatial_cone_shape _ _ _ _ _ h
  have hv2 : List.lookup "radunits"
      [("objstr", ov), ("radius", PValue.q rq.value),
       ("radunits", PValue.s rq.unit.to_string), ("spatial", PValue.s "Cone")] =
      some (PValue.s rq.unit.to_string) := rfl
  rw [hv2] at hv
  injection hv with hv
  rcases parse_dimension_unit_mem _ _ hrq with hu | hu | hu <;>
    rw [← hv, hu] <;> simp [AngUnit.to_string]

/-- Witness for C9 at a string radius resolved to degrees. -/
theorem C9_resolved_dimension_units_witness :
    (_parse_dimension (some (DimInput.str "5 deg" (some 5))) =
      Except.ok (Quantity.mk 5 AngUnit.deg)) ∧
    ((Quantity.mk 5 AngUnit.deg).unit = AngUnit.arcsec ∨
     (Quantity.mk 5 AngUnit.deg).unit = AngUnit.arcmin ∨
     (Quantity.mk 5 AngUnit.deg).unit = AngUnit.deg) :=
  ⟨rfl, C9_resolved_dimension_units.1 (some (DimInput.str "5 deg" (some 5)))
    (Quantity.mk 5 AngUnit.deg) rfl⟩

/-- C10: a Polygon query whose per-element coordinate parse fails with
ValueError or TypeError and whose first element is not a tuple aborts with
the unbound-local error on `coordinates_list` (no payload, and no
Unit/Parse error substituted). -/
theorem C10_polygon_unbound_local (polygon : List PolyElem) (e : QueryError)
    (r w : Option DimInput)
    (h1 : mapExcept _parse_coordinates polygon = Except.error e)
    (h2 : isVTError e = true)
    (h3 : ∀ a b, polygon.head? ≠ some (PolyElem.pair a b)) :
    Irsa._parse_spatial "Polygon" none r w (some polygon) =
      Except.error (QueryError.unboundLocal "coordinates_list") := by
  have hpl : polygonCoordinatesList (some polygon) =
      Except.error (QueryError.unboundLocal "coordinates_list") := by
    cases polygon with
    | nil => simp [mapExcept] at h1
    | cons first rest =>
      cases first with
      | pair a b => exact absurd rfl (h3 a b)
      | coordLike c0 => simp [polygonCoordinatesList, h1, h2]
  simp [Irsa._parse_spatial, hpl]

/-- Witness for C10 at a one-element polygon of an unparseable string. -/
theorem C10_polygon_unbound_local_witness :
    (mapExcept _parse_coordinates [PolyElem.coordLike (CoordInput.str "x" CoordParse.valueErr)] =
      Except.error (QueryError.valueError "coordinate string not recognized")) ∧
    (isVTError (QueryError.valueError "coordinate string not recognized") = true) ∧
    Irsa._parse_spatial "Polygon" none none none
        (some [PolyElem.coordLike (CoordInput.str "x" CoordParse.valueErr)]) =
      Except.error (QueryError.unboundLocal "coordinates_list") :=
  ⟨rfl, rfl, C10_polygon_unbound_local
    [PolyElem.coordLike (CoordInput.str "x" CoordParse.valueErr)]
    (QueryError.valueError "coordinate string not recognized") none none rfl rfl
    (by intro a b hh; simp at hh)⟩

end AstroqueryIrsa
